import Mathlib

/-!
Shallow embedding of `src/apps/micropiscope.cpp` (rpicam-apps, micropiscope
variant): the storage locator, the unmount manager, the filename generator,
the GPIO button classifier, the clear-on-read intent flags, and the main
event loop, together with theorems settling the specification claims.
-/

set_option maxHeartbeats 1000000

/-! ## Storage Locator (`get_mount_location`, micropiscope.cpp:42-67) -/

/-- Boolean substring test on character lists: `isSub pat s` is true when
`pat` occurs contiguously somewhere in `s`.  Embeds
`line.find("/media/") != std::string::npos`. -/
def isSub (pat : List Char) : List Char → Bool
  | [] => pat.isEmpty
  | c :: t => pat.isPrefixOf (c :: t) || isSub pat t

/-- Embeds the per-line match test `line.find("/media/") != npos`:
the literal `"/media/"` may occur anywhere in the line, not only in the
mount-point field. -/
def containsMedia (line : String) : Bool :=
  isSub "/media/".toList line.toList

/-- Characters strictly after the first space of a line, or `none` when the
line has no space (in which case `find(' ')` is `npos` in the source and,
by `size_t` wrap-around of `npos + 1`, `substr` returns the whole line). -/
def afterFirstSpace : List Char → Option (List Char)
  | [] => none
  | c :: cs => if c = ' ' then some cs else afterFirstSpace cs

/-- Embeds `line.substr(start + 1, end - start - 1)` where
`start = line.find(' ')` and `end = line.find(' ', start + 1)`: the second
space-delimited field of the line; the whole line when it has no space, and
the whole remainder when there is no second space (the `npos` count is
clamped by `substr`). -/
def extractMountPoint (line : String) : String :=
  match afterFirstSpace line.toList with
  | none => line
  | some rest => String.mk (rest.takeWhile (fun c => c ≠ ' '))

/-- Embeds `get_mount_location` (micropiscope.cpp:42-67).  The mount table
is `none` when `/proc/mounts` cannot be opened, otherwise the list of its
lines.  The accumulator starts as the empty string and is overwritten by the
extracted field of every line containing `"/media/"`, so the last matching
line wins. -/
def get_mount_location (mounts : Option (List String)) : String :=
  match mounts with
  | none => ""
  | some lines =>
      lines.foldl
        (fun acc line => if containsMedia line then extractMountPoint line else acc) ""

/-- Written from the spec sentence for C6 ("mount point lies under the
removable-media root"): whether a path string starts with `"/media/"`. -/
def startsWithMedia (p : String) : Bool :=
  "/media/".toList.isPrefixOf p.toList

/-! ## Storage Unmount Manager (`unmount_drive`, micropiscope.cpp:69-100) -/

/-- One observable step of the unmount manager: a normal `umount` call made
when the elapsed time is `t` seconds, or the single forced `umount2(...,
MNT_FORCE)` call. -/
inductive UEvent where
  | normalAttempt (t : Nat)
  | forcedAttempt
deriving DecidableEq, Repr

/-- How the retry loop of `unmount_drive` terminates. -/
inductive UOutcome where
  | normalSuccess
  | forcedSuccess
  | forcedFailure
deriving DecidableEq, Repr

/-- Embeds the retry loop of `unmount_drive` (micropiscope.cpp:81-99).
`fails t` tells whether the `umount` call made at elapsed time `t` seconds
fails; `forceFails` tells whether the final `umount2(..., MNT_FORCE)` call
fails.  The loop sleeps 1 s after each failed call and breaks into the
forced attempt as soon as the elapsed time `t + 1` exceeds the 5 s timeout;
`rem` is the number of further 1 s sleeps allowed before that happens
(`rem = 5 - t` along the real execution), so recursion is structural. -/
def unmount_go (fails : Nat → Bool) (forceFails : Bool) : Nat → Nat → List UEvent × UOutcome
  | t, 0 =>
      if fails t then
        ([UEvent.normalAttempt t, UEvent.forcedAttempt],
          if forceFails then UOutcome.forcedFailure else UOutcome.forcedSuccess)
      else ([UEvent.normalAttempt t], UOutcome.normalSuccess)
  | t, r + 1 =>
      if fails t then
        let rest := unmount_go fails forceFails (t + 1) r
        (UEvent.normalAttempt t :: rest.1, rest.2)
      else ([UEvent.normalAttempt t], UOutcome.normalSuccess)

/-- The retry loop started at elapsed time 0 with the 5 s timeout
(`UMOUNT_TIMEOUT_S`, micropiscope.cpp:40). -/
def unmount_loop (fails : Nat → Bool) (forceFails : Bool) : List UEvent × UOutcome :=
  unmount_go fails forceFails 0 5

/-- Embeds `unmount_drive` (micropiscope.cpp:69-100).  Returns whether the
"cannot find mount location" error was logged, together with the attempt
trace and outcome of the retry loop.  NOTE (faithful to the source): when
the locator returns the empty string the function logs the error but does
NOT return; it falls through to `sync()` and runs the retry loop on the
empty path.  `fails`/`forceFails` describe the outcomes of the `umount` /
`umount2` calls on the resolved path over time. -/
def unmount_drive (mounts : Option (List String)) (fails : Nat → Bool)
    (forceFails : Bool) : Bool × List UEvent × UOutcome :=
  let mountLocation := get_mount_location mounts
  let errLogged := mountLocation = ""
  (decide errLogged, unmount_loop fails forceFails)

/-! ## Filename Generator (`generate_filename`, micropiscope.cpp:102-140) -/

/-- A broken-down wall-clock reading, as rendered by
`strftime("%Y-%m-%d-%H-%M-%S")`: human-readable year, month (1-12), day,
hour, minute, second. -/
structure Tm where
  year : Nat
  month : Nat
  day : Nat
  hour : Nat
  minute : Nat
  second : Nat
deriving DecidableEq, Repr

/-- Two-digit zero padding, as `strftime` produces for `%m %d %H %M %S`. -/
def pad2 (n : Nat) : String :=
  if n < 10 then "0" ++ toString n else toString n

/-- Embeds the `strftime(.., "%Y-%m-%d-%H-%M-%S", ..)` formatting of
micropiscope.cpp:128. -/
def formatTimestamp (t : Tm) : String :=
  toString t.year ++ "-" ++ pad2 t.month ++ "-" ++ pad2 t.day ++ "-" ++
    pad2 t.hour ++ "-" ++ pad2 t.minute ++ "-" ++ pad2 t.second

/-- The filesystem state visible to `generate_filename`: the set of paths
that currently exist as directories, and the set of paths the OS would
create on request.  A path in neither set makes `create_directory` fail
with an OS error (read-only or unwritable media, permissions, missing
parent, existing non-directory). -/
structure FS where
  dirs : List String
  canCreate : List String
deriving DecidableEq, Repr

/-- Embeds `std::filesystem::is_directory`. -/
def is_directory (fs : FS) (p : String) : Bool :=
  fs.dirs.contains p

/-- The exception thrown by the non-`error_code` overloads of
`std::filesystem` operations when the underlying OS call fails. -/
inductive FsError where
  | filesystem_error
deriving DecidableEq, Repr

/-- The three outcomes of the non-`error_code` overload of
`std::filesystem::create_directory`. -/
inductive CreateResult where
  | created (fs : FS)
  | existed
  | oserror
deriving DecidableEq, Repr

/-- Embeds the non-`error_code` overload of
`std::filesystem::create_directory` (micropiscope.cpp:116): `created fs2`
when the directory is newly created, `existed` (the plain `false` return)
when the path already exists as a directory, and `oserror` — the thrown
`filesystem_error` — when the OS refuses the creation (read-only or
unwritable media, permissions, missing parent, existing non-directory). -/
def create_directory (fs : FS) (p : String) : CreateResult :=
  if fs.dirs.contains p then CreateResult.existed
  else if fs.canCreate.contains p then CreateResult.created { fs with dirs := p :: fs.dirs }
  else CreateResult.oserror

/-- Embeds `generate_filename` (micropiscope.cpp:102-140): resolve the
mount location; empty means no destination (`ok (none, fs)`); otherwise
ensure the `<mount>/micropiscope` directory exists — a plain `false` from
`create_directory` is the local `return std::string()`, while a thrown
`filesystem_error` propagates out of the function uncaught
(`Except.error`) — and return `<mount>/micropiscope/<timestamp>.jpg` plus
the updated filesystem. -/
def generate_filename (mounts : Option (List String)) (fs : FS) (t : Tm) :
    Except FsError (Option String × FS) :=
  let mountLocation := get_mount_location mounts
  if mountLocation = "" then Except.ok (none, fs)
  else
    let dir := mountLocation ++ "/micropiscope"
    if is_directory fs dir then
      Except.ok (some (dir ++ "/" ++ formatTimestamp t ++ ".jpg"), fs)
    else
      match create_directory fs dir with
      | CreateResult.created fs2 =>
          Except.ok (some (dir ++ "/" ++ formatTimestamp t ++ ".jpg"), fs2)
      | CreateResult.existed => Except.ok (none, fs)
      | CreateResult.oserror => Except.error FsError.filesystem_error

/-! ## Button Input Classifier (`RPiCamJpegApp::_callback`, micropiscope.cpp:163-188) -/

/-- A debounced GPIO logic level as delivered by the alert callback
(`PI_LOW` = pressed with the pull-up wiring, `PI_HIGH` = released). -/
inductive GpioLevel where
  | low
  | high
deriving DecidableEq, Repr

/-- GPIO line numbers (micropiscope.cpp:29-36). -/
def KEY_DOWN : Nat := 4
def KEY_MENU : Nat := 14
def KEY_POWER : Nat := 18

/-- Unsigned 32-bit subtraction `(uint32_t)(a - b)`, as in the hold-time
computation of micropiscope.cpp:169. -/
def u32sub (a b : Nat) : Nat :=
  (a % 4294967296 + 4294967296 - b % 4294967296) % 4294967296

/-- The mutable state touched by `_callback`: the function-local `static
uint32_t keyPowerTimeStart` (`none` before the first power-line callback
runs its initializer) and the two clear-on-read intent flags. -/
structure AppState where
  keyPowerTimeStart : Option Nat
  doShutdown : Bool
  takeImage : Bool
deriving DecidableEq, Repr

/-- State of the app before any callback has fired
(`doShutdown(false), takeImage(false)`, micropiscope.cpp:147). -/
def initAppState : AppState := ⟨none, false, false⟩

/-- Embeds `RPiCamJpegApp::_callback` (micropiscope.cpp:163-188).  The
returned Bool records whether the KEY_DOWN branch invoked
`unmount_drive`.  On the power line: a low (pressed) edge stores the tick;
a high (released) edge raises `doShutdown` when the 32-bit tick difference
exceeds `2000 * 1000` microseconds.  The `getD tick` models the C++
`static` initializer, which runs on the first power-line callback. -/
def callbackStep (s : AppState) (gpio : Nat) (level : GpioLevel) (tick : Nat) :
    AppState × Bool :=
  if gpio = KEY_POWER then
    let start := s.keyPowerTimeStart.getD tick
    if level = GpioLevel.low then
      ({ s with keyPowerTimeStart := some tick }, false)
    else if u32sub tick start > 2000 * 1000 then
      ({ s with keyPowerTimeStart := some start, doShutdown := true }, false)
    else
      ({ s with keyPowerTimeStart := some start }, false)
  else if gpio = KEY_MENU ∧ level = GpioLevel.low then
    ({ s with takeImage := true }, false)
  else if gpio = KEY_DOWN ∧ level = GpioLevel.low then
    (s, true)
  else (s, false)

/-- One power-line edge event: the new level and the 32-bit microsecond
tick at which it occurred. -/
structure PEvent where
  level : GpioLevel
  tick : Nat
deriving DecidableEq, Repr

/-- Runs `_callback` on a sequence of power-line edge events. -/
def runPower (s : AppState) : List PEvent → AppState
  | [] => s
  | e :: rest => runPower (callbackStep s KEY_POWER e.level e.tick).1 rest

/-- Written from the claim: some asserted interval of the event sequence
(a low edge immediately followed by a high edge) lasts strictly more than
2000 ms. -/
def hasLongPress : List PEvent → Bool
  | e1 :: e2 :: rest =>
      (e1.level == GpioLevel.low && e2.level == GpioLevel.high &&
        decide (e2.tick - e1.tick > 2000 * 1000)) || hasLongPress (e2 :: rest)
  | _ => false

/-- Helper for the long-press proof: the pending press that began at tick
`t0` before the sequence starts is released over-threshold by the first
event of the sequence. -/
def headLong (t0 : Nat) : List PEvent → Bool
  | e :: _ => e.level == GpioLevel.high && decide (e.tick - t0 > 2000 * 1000)
  | [] => false

/-- The events are genuine edges: consecutive events have distinct levels. -/
def alternating (evs : List PEvent) : Prop :=
  List.Chain' (fun a b => a.level ≠ b.level) evs

/-- The event timestamps are monotone. -/
def ticksMono (evs : List PEvent) : Prop :=
  List.Chain' (fun a b => a.tick ≤ b.tick) evs

/-! ## Intent flags (`DoShutdown` / `TakeImage`, micropiscope.cpp:197-217) -/

/-- Embeds `RPiCamJpegApp::DoShutdown` (micropiscope.cpp:197-206): given
the current flag, returns (result, new flag) — clear on read. -/
def DoShutdown (flag : Bool) : Bool × Bool :=
  if flag then (true, false) else (false, false)

/-- Embeds `RPiCamJpegApp::TakeImage` (micropiscope.cpp:208-217): given
the current flag, returns (result, new flag) — clear on read. -/
def TakeImage (flag : Bool) : Bool × Bool :=
  if flag then (true, false) else (false, false)

/-- One operation on an intent flag: a raise (`flag = true` in
`_callback`) or a consumption (`DoShutdown` / `TakeImage`). -/
inductive FlagOp where
  | raiseFlag
  | consumeFlag
deriving DecidableEq, Repr

/-- The flag value after an interleaving of raises and consumptions. -/
def flagAfter (b : Bool) : List FlagOp → Bool
  | [] => b
  | FlagOp.raiseFlag :: rest => flagAfter true rest
  | FlagOp.consumeFlag :: rest => flagAfter (DoShutdown b).2 rest

/-! ## Event Loop (`event_loop`, micropiscope.cpp:226-298) -/

/-- The active pipeline configuration, as the spec's DeviceMode. -/
inductive Mode where
  | viewfinder
  | still
deriving DecidableEq, Repr

/-- The message kinds returned by `app.Wait()` (micropiscope.cpp:235-246);
`unknown` stands for any message that is none of the recognised three. -/
inductive MsgType where
  | timeout
  | quit
  | requestComplete
  | unknown
deriving DecidableEq, Repr

/-- The state the event loop carries between iterations: the device mode
and the two intent flags. -/
structure LoopState where
  mode : Mode
  doShutdown : Bool
  takeImage : Bool
deriving DecidableEq, Repr

/-- The externally visible commands one loop iteration issues, in order. -/
inductive Act where
  | stopCamera
  | teardown
  | configureStill
  | configureViewfinder
  | startCamera
  | showPreview
  | encodeImage
  | discardFrame
  | syncFS
  | powerOff
deriving DecidableEq, Repr

/-- The result of one iteration of the event loop body. -/
inductive StepResult where
  | next (s : LoopState) (acts : List Act)
  | quitLoop
  | shutdownExit (acts : List Act)
  | protocolError
deriving DecidableEq, Repr

/-- Embeds one iteration of `event_loop` (micropiscope.cpp:233-297).
`fnameOk` abstracts whether `generate_filename` returned a destination
(nonempty) for this capture; when it did not, the frame is discarded with
an error log (`discardFrame`).  The still-image encoder (`jpeg_save`) is
outside src/; modelled from the spec (section 6), `encode(...)` returns
success/failure and never terminates the process, so `encodeImage` does
not alter control flow. -/
def loopStep (s : LoopState) (msg : MsgType) (fnameOk : Bool) : StepResult :=
  match msg with
  | MsgType.timeout => StepResult.next s [Act.stopCamera, Act.startCamera]
  | MsgType.quit => StepResult.quitLoop
  | MsgType.unknown => StepResult.protocolError
  | MsgType.requestComplete =>
      match s.mode with
      | Mode.viewfinder =>
          if s.takeImage then
            StepResult.next { s with takeImage := false, mode := Mode.still }
              [Act.stopCamera, Act.teardown, Act.configureStill, Act.startCamera]
          else if s.doShutdown then
            StepResult.shutdownExit
              [Act.stopCamera, Act.teardown, Act.syncFS, Act.powerOff]
          else
            StepResult.next s [Act.showPreview]
      | Mode.still =>
          let saveActs := if fnameOk then [Act.encodeImage] else [Act.discardFrame]
          StepResult.next { s with mode := Mode.viewfinder }
            ([Act.stopCamera] ++ saveActs ++
              [Act.teardown, Act.configureViewfinder, Act.startCamera])

/-- The result of one `event_loop` iteration with the filename generator
invoked for real in the still branch: `StepResult` extended with the new
filesystem state and with `fsError`, the `filesystem_error` thrown by
`generate_filename` that escapes the loop (no handler inside
`event_loop`). -/
inductive StepResultE where
  | next (s : LoopState) (acts : List Act) (fs : FS)
  | quitLoop
  | shutdownExit (acts : List Act)
  | protocolError
  | fsError
deriving DecidableEq, Repr

/-- Embeds one iteration of `event_loop` (micropiscope.cpp:233-297) with
`generate_filename` actually invoked on the still branch
(micropiscope.cpp:285): identical to `loopStep` except that a
`filesystem_error` thrown during filename generation is not caught
anywhere in the loop and aborts it (`fsError`). -/
def event_loop_step (s : LoopState) (msg : MsgType) (mounts : Option (List String))
    (fs : FS) (t : Tm) : StepResultE :=
  match msg with
  | MsgType.timeout => StepResultE.next s [Act.stopCamera, Act.startCamera] fs
  | MsgType.quit => StepResultE.quitLoop
  | MsgType.unknown => StepResultE.protocolError
  | MsgType.requestComplete =>
      match s.mode with
      | Mode.viewfinder =>
          if s.takeImage then
            StepResultE.next { s with takeImage := false, mode := Mode.still }
              [Act.stopCamera, Act.teardown, Act.configureStill, Act.startCamera] fs
          else if s.doShutdown then
            StepResultE.shutdownExit
              [Act.stopCamera, Act.teardown, Act.syncFS, Act.powerOff]
          else
            StepResultE.next s [Act.showPreview] fs
      | Mode.still =>
          match generate_filename mounts fs t with
          | Except.error _ => StepResultE.fsError
          | Except.ok (none, fs2) =>
              StepResultE.next { s with mode := Mode.viewfinder }
                [Act.stopCamera, Act.discardFrame, Act.teardown,
                  Act.configureViewfinder, Act.startCamera] fs2
          | Except.ok (some _, fs2) =>
              StepResultE.next { s with mode := Mode.viewfinder }
                [Act.stopCamera, Act.encodeImage, Act.teardown,
                  Act.configureViewfinder, Act.startCamera] fs2

/-- How a whole run of `event_loop` can end: quit message, shutdown
branch, the thrown `runtime_error` on an unrecognised message, or the
`filesystem_error` escaping from `generate_filename` on a still frame. -/
inductive LoopExit where
  | quitOk
  | shutdownOk
  | protoFail
  | fsFail
deriving DecidableEq, Repr

/-- Embeds `main` (micropiscope.cpp:300-323): `gpioOk` is whether
`gpioInitialise()` succeeded, `parseOk` whether option parsing succeeded,
`ex` how the event loop ended.  The `catch (std::exception const &)`
turns any escaping exception — the GPIO-init `runtime_error`, the
unrecognised-message `runtime_error`, or a `filesystem_error` from the
capture path — into exit code -1; every other path returns 0. -/
def mainResult (gpioOk parseOk : Bool) (ex : LoopExit) : Int :=
  if !gpioOk then -1
  else if !parseOk then 0
  else
    match ex with
    | LoopExit.protoFail => -1
    | LoopExit.fsFail => -1
    | _ => 0

/-! ## Helper lemmas -/

/-- String append is associative (componentwise list append). -/
theorem strAppendAssoc (a b c : String) : a ++ b ++ c = a ++ (b ++ c) := by
  cases a with
  | mk la =>
    cases b with
    | mk lb =>
      cases c with
      | mk lc =>
        show String.mk (la ++ lb ++ lc) = String.mk (la ++ (lb ++ lc))
        rw [List.append_assoc]

/-- Collapsing the literal parts of the generated capture path. -/
theorem path_assoc (v ts : String) :
    v ++ "/micropiscope" ++ "/" ++ ts ++ ".jpg" = v ++ "/micropiscope/" ++ ts ++ ".jpg" := by
  have h : ("/micropiscope" ++ "/" : String) = "/micropiscope/" := by decide
  rw [strAppendAssoc v "/micropiscope" "/", h]

/-- The locator fold leaves the accumulator alone on a run of
non-matching lines. -/
theorem locate_foldl_no_match (lines : List String) (acc : String)
    (h : ∀ x ∈ lines, containsMedia x = false) :
    lines.foldl
      (fun acc line => if containsMedia line then extractMountPoint line else acc) acc = acc := by
  induction lines generalizing acc with
  | nil => rfl
  | cons l rest ih =>
      have hl : containsMedia l = false := h l (List.mem_cons_self l rest)
      have hrest : ∀ x ∈ rest, containsMedia x = false :=
        fun x hx => h x (List.mem_cons_of_mem l hx)
      simp [hl, ih _ hrest]

/-- Consuming an intent flag always leaves it false. -/
theorem DoShutdown_snd (b : Bool) : (DoShutdown b).2 = false := by
  cases b <;> rfl

/-- `flagAfter` distributes over append. -/
theorem flagAfter_append (l1 l2 : List FlagOp) (b : Bool) :
    flagAfter b (l1 ++ l2) = flagAfter (flagAfter b l1) l2 := by
  induction l1 generalizing b with
  | nil => rfl
  | cons o rest ih => cases o <;> simp [flagAfter, ih]

/-- Raising never lowers a raised flag. -/
theorem flagAfter_replicate_raise (m : Nat) :
    flagAfter true (List.replicate m FlagOp.raiseFlag) = true := by
  induction m with
  | zero => rfl
  | succ k ih => simpa [List.replicate_succ, flagAfter] using ih

/-- Without a raise, a cleared flag stays false. -/
theorem flagAfter_no_raise (ops : List FlagOp)
    (h : ∀ o ∈ ops, o ≠ FlagOp.raiseFlag) :
    flagAfter false ops = false := by
  induction ops with
  | nil => rfl
  | cons o rest ih =>
      cases o with
      | raiseFlag => exact absurd rfl (h _ (List.mem_cons_self _ _))
      | consumeFlag =>
          simpa [flagAfter, DoShutdown] using ih fun x hx => h x (List.mem_cons_of_mem _ hx)

/-! ## Claim theorems -/

/-- C1 (code-bug evidence): with an empty mount table the locator yields
the empty string; `unmount_drive` logs the "cannot find mount location"
error (first component `true`) yet, lacking a `return`, still runs the
full retry loop on the empty path — `umount("")` always fails with
`ENOENT`, hence `fails = fun _ => true`, giving six normal attempts at
elapsed seconds 0-5 plus one forced attempt, not the immediate no-op the
claim describes. -/
theorem unmount_drive_empty_location_still_attempts :
    unmount_drive (some []) (fun _ => true) true =
      (true,
       [UEvent.normalAttempt 0, UEvent.normalAttempt 1, UEvent.normalAttempt 2,
        UEvent.normalAttempt 3, UEvent.normalAttempt 4, UEvent.normalAttempt 5,
        UEvent.forcedAttempt],
       UOutcome.forcedFailure) := by decide

/-- C6 (counterexample): a mount table whose single line contains
`"/media/"` only in the device field.  No entry's mount point lies under
`/media/`, so per the claim the locator should return an empty result; it
actually returns the second field `"/mnt/data"`, a nonempty path not under
`/media/`. -/
theorem mount_locator_not_under_media_counterexample :
    get_mount_location (some ["/dev/media/card0 /mnt/data ext4 rw 0 0"]) = "/mnt/data" ∧
    startsWithMedia "/mnt/data" = false ∧
    ("/mnt/data" : String) ≠ "" := by decide

/-- C6 (amended): for every mount table, the locator returns the second
space-delimited field of the LAST line that contains the substring
`"/media/"` anywhere in the line, and returns the empty string when the
table cannot be read or no line contains that substring; being pure, it
has no side effects. -/
theorem mount_locator_last_match_second_field
    (pre post lines : List String) (l : String)
    (hl : containsMedia l = true)
    (hpost : ∀ x ∈ post, containsMedia x = false)
    (hnone : ∀ x ∈ lines, containsMedia x = false) :
    get_mount_location none = "" ∧
    get_mount_location (some lines) = "" ∧
    get_mount_location (some (pre ++ l :: post)) = extractMountPoint l := by
  refine ⟨rfl, locate_foldl_no_match lines "" hnone, ?_⟩
  show (pre ++ l :: post).foldl
      (fun acc line => if containsMedia line then extractMountPoint line else acc) "" = _
  rw [List.foldl_append, List.foldl_cons, hl]
  simpa using locate_foldl_no_match post (extractMountPoint l) hpost

/-- C6 (witness): the amended theorem applied to a concrete table whose
last matching line is a normal removable-media entry. -/
theorem mount_locator_last_match_second_field_witness :
    containsMedia "/dev/sda1 /media/usb vfat rw 0 0" = true ∧
    (∀ x ∈ ["tmpfs /run tmpfs rw 0 0"], containsMedia x = false) ∧
    (∀ x ∈ ["proc /proc proc rw 0 0"], containsMedia x = false) ∧
    (get_mount_location none = "" ∧
     get_mount_location (some ["proc /proc proc rw 0 0"]) = "" ∧
     get_mount_location
       (some (["tmpfs /boot tmpfs rw 0 0"] ++
         "/dev/sda1 /media/usb vfat rw 0 0" :: ["tmpfs /run tmpfs rw 0 0"])) =
       extractMountPoint "/dev/sda1 /media/usb vfat rw 0 0") :=
  ⟨by decide, by decide, by decide,
   mount_locator_last_match_second_field _ _ _ _ (by decide) (by decide) (by decide)⟩

/-- C8: for a fixed resolved volume path and a fixed wall-clock reading,
filename generation deterministically returns
`<volume>/micropiscope/YYYY-MM-DD-HH-MM-SS.jpg`, and afterwards the
`micropiscope` subdirectory exists — created as a side effect when it was
absent (hypothesis: either it already exists or the OS permits its
creation). -/
theorem generate_filename_format (mounts : Option (List String)) (fs : FS) (t : Tm)
    (v : String)
    (hv : get_mount_location mounts = v) (hne : ¬ v = "")
    (hdir : is_directory fs (v ++ "/micropiscope") = true ∨
      fs.canCreate.contains (v ++ "/micropiscope") = true) :
    generate_filename mounts fs t =
      Except.ok (some (v ++ "/micropiscope/" ++ formatTimestamp t ++ ".jpg"),
        if is_directory fs (v ++ "/micropiscope") = true then fs
        else { fs with dirs := (v ++ "/micropiscope") :: fs.dirs }) ∧
    is_directory
      (if is_directory fs (v ++ "/micropiscope") = true then fs
        else { fs with dirs := (v ++ "/micropiscope") :: fs.dirs })
      (v ++ "/micropiscope") = true := by
  unfold generate_filename
  rw [hv]
  by_cases hd : (v ++ "/micropiscope") ∈ fs.dirs
  · simp [is_directory, hne, hd, path_assoc]
  · have hc : (v ++ "/micropiscope") ∈ fs.canCreate := by
      rcases hdir with h | h
      · exact absurd (by simpa [is_directory] using h) hd
      · simpa using h
    simp [is_directory, create_directory, hne, hd, hc, path_assoc]

/-- C8 (witness): the claim's own example — volume `/media/usb`, clock
2024-01-02T03:04:05, subdirectory absent but creatable. -/
theorem generate_filename_format_witness :
    get_mount_location (some ["/dev/sda1 /media/usb vfat rw 0 0"]) = "/media/usb" ∧
    ¬ ("/media/usb" : String) = "" ∧
    (is_directory (⟨[], ["/media/usb/micropiscope"]⟩ : FS) ("/media/usb" ++ "/micropiscope") = true ∨
      (FS.canCreate ⟨[], ["/media/usb/micropiscope"]⟩).contains ("/media/usb" ++ "/micropiscope") = true) ∧
    (generate_filename (some ["/dev/sda1 /media/usb vfat rw 0 0"])
        (⟨[], ["/media/usb/micropiscope"]⟩ : FS) ⟨2024, 1, 2, 3, 4, 5⟩ =
      Except.ok
        (some ("/media/usb" ++ "/micropiscope/" ++ formatTimestamp ⟨2024, 1, 2, 3, 4, 5⟩ ++ ".jpg"),
          if is_directory (⟨[], ["/media/usb/micropiscope"]⟩ : FS) ("/media/usb" ++ "/micropiscope") = true then
            (⟨[], ["/media/usb/micropiscope"]⟩ : FS)
          else { (⟨[], ["/media/usb/micropiscope"]⟩ : FS) with
                  dirs := ("/media/usb" ++ "/micropiscope") :: FS.dirs ⟨[], ["/media/usb/micropiscope"]⟩ }) ∧
     is_directory
        (if is_directory (⟨[], ["/media/usb/micropiscope"]⟩ : FS) ("/media/usb" ++ "/micropiscope") = true then
            (⟨[], ["/media/usb/micropiscope"]⟩ : FS)
          else { (⟨[], ["/media/usb/micropiscope"]⟩ : FS) with
                  dirs := ("/media/usb" ++ "/micropiscope") :: FS.dirs ⟨[], ["/media/usb/micropiscope"]⟩ })
        ("/media/usb" ++ "/micropiscope") = true) :=
  ⟨by decide, by decide, by decide,
   generate_filename_format _ _ _ _ (by decide) (by decide) (by decide)⟩

/-- C9: when both intents are pending at a viewfinder frame completion,
the capture branch wins: `TakeImage` is consumed, `doShutdown` stays true
(neither consumed nor lost) through the capture cycle, and a later
viewfinder frame completion consumes it and shuts down — for every
filename-generation outcome in between. -/
theorem shutdown_pending_survives_capture (f1 f2 f3 : Bool) :
    loopStep ⟨Mode.viewfinder, true, true⟩ MsgType.requestComplete f1 =
      StepResult.next ⟨Mode.still, true, false⟩
        [Act.stopCamera, Act.teardown, Act.configureStill, Act.startCamera] ∧
    loopStep ⟨Mode.still, true, false⟩ MsgType.requestComplete f2 =
      StepResult.next ⟨Mode.viewfinder, true, false⟩
        ([Act.stopCamera] ++ (if f2 then [Act.encodeImage] else [Act.discardFrame]) ++
          [Act.teardown, Act.configureViewfinder, Act.startCamera]) ∧
    loopStep ⟨Mode.viewfinder, true, false⟩ MsgType.requestComplete f3 =
      StepResult.shutdownExit [Act.stopCamera, Act.teardown, Act.syncFS, Act.powerOff] :=
  ⟨rfl, rfl, rfl⟩

/-- C5 (code-bug evidence): a still frame completing while `/media/usb`
is mounted but unwritable — the `micropiscope` subdirectory does not
exist and the OS refuses to create it (`dirs` and `canCreate` both lack
it).  `std::filesystem::create_directory` (non-`error_code` overload)
throws `filesystem_error`; nothing in `generate_filename` or `event_loop`
catches it, so the iteration aborts, the exception lands in `main`'s
`catch (std::exception const &)`, and the process exits -1 — a
storage-related failure that DOES terminate the process, contrary to the
claim. -/
theorem storage_failure_terminates_process :
    generate_filename (some ["/dev/sda1 /media/usb vfat ro 0 0"])
        (⟨[], []⟩ : FS) ⟨2024, 1, 2, 3, 4, 5⟩ =
      Except.error FsError.filesystem_error ∧
    event_loop_step ⟨Mode.still, false, false⟩ MsgType.requestComplete
        (some ["/dev/sda1 /media/usb vfat ro 0 0"]) (⟨[], []⟩ : FS) ⟨2024, 1, 2, 3, 4, 5⟩ =
      StepResultE.fsError ∧
    mainResult true true LoopExit.fsFail = -1 :=
  ⟨rfl, rfl, rfl⟩

/-- C4: the intent flags are clear-on-read booleans.  A raise leaves the
flag true; `n ≥ 1` raises leave exactly one pending intent, whose
consumption returns true and clears the flag; consuming a cleared flag
returns false; and after any consumption the flag reads false until the
next raise, for every interleaving. -/
theorem intent_flag_clear_on_read (b : Bool) (ops ops2 : List FlagOp) (n : Nat)
    (hn : 1 ≤ n) (h2 : ∀ o ∈ ops2, o ≠ FlagOp.raiseFlag) :
    flagAfter b (ops ++ [FlagOp.raiseFlag]) = true ∧
    flagAfter b (List.replicate n FlagOp.raiseFlag) = true ∧
    DoShutdown (flagAfter b (List.replicate n FlagOp.raiseFlag)) = (true, false) ∧
    DoShutdown false = (false, false) ∧
    TakeImage true = (true, false) ∧
    TakeImage false = (false, false) ∧
    flagAfter b (ops ++ FlagOp.consumeFlag :: ops2) = false := by
  have hrep : flagAfter b (List.replicate n FlagOp.raiseFlag) = true := by
    cases n with
    | zero => exact absurd hn (by decide)
    | succ m => simpa [List.replicate_succ, flagAfter] using flagAfter_replicate_raise m
  refine ⟨?_, hrep, by rw [hrep]; rfl, rfl, rfl, rfl, ?_⟩
  · rw [flagAfter_append]
    rfl
  · rw [flagAfter_append]
    show flagAfter (DoShutdown (flagAfter b ops)).2 ops2 = false
    rw [DoShutdown_snd]
    exact flagAfter_no_raise ops2 h2

/-- C4 (witness): one raise then two consecutive consumptions, starting
from a cleared flag. -/
theorem intent_flag_clear_on_read_witness :
    flagAfter false ([FlagOp.raiseFlag] ++ [FlagOp.raiseFlag]) = true ∧
    flagAfter false (List.replicate 2 FlagOp.raiseFlag) = true ∧
    DoShutdown (flagAfter false (List.replicate 2 FlagOp.raiseFlag)) = (true, false) ∧
    DoShutdown false = (false, false) ∧
    TakeImage true = (true, false) ∧
    TakeImage false = (false, false) ∧
    flagAfter false ([FlagOp.raiseFlag] ++ FlagOp.consumeFlag :: [FlagOp.consumeFlag]) = false :=
  intent_flag_clear_on_read false [FlagOp.raiseFlag] [FlagOp.consumeFlag] 2
    (by decide) (by decide)

/-- C3: one event-loop iteration h = `loopStep s msg f = next s2 acts`
reconfigures to Still exactly when a viewfinder frame completes with
CaptureRequested pending (and then consumes the flag); a still frame
completion always reconfigures back to Viewfinder and restarts the
pipeline, whether the filename was produced (encode) or not (discard);
and a timeout never changes the state. -/
theorem event_loop_mode_alternation (s s2 : LoopState) (msg : MsgType) (f : Bool)
    (acts : List Act)
    (h : loopStep s msg f = StepResult.next s2 acts) :
    (Act.configureStill ∈ acts ↔
      (s.mode = Mode.viewfinder ∧ msg = MsgType.requestComplete ∧ s.takeImage = true)) ∧
    (Act.configureStill ∈ acts → (s2.mode = Mode.still ∧ s2.takeImage = false)) ∧
    (s2.mode = Mode.still → s.mode = Mode.still ∨ Act.configureStill ∈ acts) ∧
    ((s.mode = Mode.still ∧ msg = MsgType.requestComplete) →
      (s2.mode = Mode.viewfinder ∧ Act.configureViewfinder ∈ acts ∧ Act.startCamera ∈ acts ∧
        (Act.encodeImage ∈ acts ↔ f = true) ∧ (Act.discardFrame ∈ acts ↔ f = false))) ∧
    (msg = MsgType.timeout → s2 = s) := by
  obtain ⟨m, ds, ti⟩ := s
  cases msg <;> cases m <;> cases ds <;> cases ti <;> cases f <;>
    simp [loopStep] at h <;> obtain ⟨h1, h2⟩ := h <;> subst h1 <;> subst h2 <;> simp

/-- C3 (witness): a viewfinder frame completion with CaptureRequested
pending, entering Still. -/
theorem event_loop_mode_alternation_witness :
    (Act.configureStill ∈
        [Act.stopCamera, Act.teardown, Act.configureStill, Act.startCamera] ↔
      ((⟨Mode.viewfinder, false, true⟩ : LoopState).mode = Mode.viewfinder ∧
        MsgType.requestComplete = MsgType.requestComplete ∧
        (⟨Mode.viewfinder, false, true⟩ : LoopState).takeImage = true)) ∧
    (Act.configureStill ∈
        [Act.stopCamera, Act.teardown, Act.configureStill, Act.startCamera] →
      ((⟨Mode.still, false, false⟩ : LoopState).mode = Mode.still ∧
        (⟨Mode.still, false, false⟩ : LoopState).takeImage = false)) ∧
    ((⟨Mode.still, false, false⟩ : LoopState).mode = Mode.still →
      (⟨Mode.viewfinder, false, true⟩ : LoopState).mode = Mode.still ∨
        Act.configureStill ∈
          [Act.stopCamera, Act.teardown, Act.configureStill, Act.startCamera]) ∧
    (((⟨Mode.viewfinder, false, true⟩ : LoopState).mode = Mode.still ∧
        MsgType.requestComplete = MsgType.requestComplete) →
      ((⟨Mode.still, false, false⟩ : LoopState).mode = Mode.viewfinder ∧
        Act.configureViewfinder ∈
          [Act.stopCamera, Act.teardown, Act.configureStill, Act.startCamera] ∧
        Act.startCamera ∈
          [Act.stopCamera, Act.teardown, Act.configureStill, Act.startCamera] ∧
        (Act.encodeImage ∈
            [Act.stopCamera, Act.teardown, Act.configureStill, Act.startCamera] ↔
          true = true) ∧
        (Act.discardFrame ∈
            [Act.stopCamera, Act.teardown, Act.configureStill, Act.startCamera] ↔
          true = false))) ∧
    (MsgType.requestComplete = MsgType.timeout →
      (⟨Mode.still, false, false⟩ : LoopState) = ⟨Mode.viewfinder, false, true⟩) :=
  event_loop_mode_alternation ⟨Mode.viewfinder, false, true⟩ ⟨Mode.still, false, false⟩
    MsgType.requestComplete true
    [Act.stopCamera, Act.teardown, Act.configureStill, Act.startCamera] (by decide)

/-- Unsigned 32-bit subtraction of wrapped ticks recovers the true
duration whenever it is below 2^32. -/
theorem u32sub_wrapped (a b : Nat) (h1 : b ≤ a) (h2 : a - b < 4294967296) :
    u32sub (a % 4294967296) (b % 4294967296) = a - b := by
  unfold u32sub
  omega

/-- C10: a press at true time `t1` and release at true time `t2`, with the
32-bit tick counter delivering `t1 % 2^32` and `t2 % 2^32`, raise
ShutdownRequested exactly when the true hold duration exceeds 2000 ms —
for any true duration below 2^32 microseconds, wrap-around included. -/
theorem power_tick_wraparound_correct (t1 t2 : Nat) (st : Option Nat) (ti : Bool)
    (h1 : t1 ≤ t2) (h2 : t2 - t1 < 4294967296) :
    ((callbackStep
        ((callbackStep ⟨st, false, ti⟩ KEY_POWER GpioLevel.low (t1 % 4294967296)).1)
        KEY_POWER GpioLevel.high (t2 % 4294967296)).1).doShutdown = true ↔
      2000 * 1000 < t2 - t1 := by
  have key : u32sub (t2 % 4294967296) (t1 % 4294967296) = t2 - t1 :=
    u32sub_wrapped t2 t1 h1 h2
  by_cases hgt : 2000 * 1000 < t2 - t1
  · simp [callbackStep, KEY_POWER, key, hgt]
  · simp [callbackStep, KEY_POWER, key, hgt]

/-- C10 (witness): a press 1000 µs before the 32-bit tick counter wraps,
released 2 501 000 µs later, so the raw release tick is far below the raw
press tick; the threshold comparison is still correct. -/
theorem power_tick_wraparound_correct_witness :
    4294966296 ≤ 4297467296 ∧ 4297467296 - 4294966296 < 4294967296 ∧
    (((callbackStep
        ((callbackStep ⟨none, false, false⟩ KEY_POWER GpioLevel.low (4294966296 % 4294967296)).1)
        KEY_POWER GpioLevel.high (4297467296 % 4294967296)).1).doShutdown = true ↔
      2000 * 1000 < 4297467296 - 4294966296) :=
  ⟨by decide, by decide,
   power_tick_wraparound_correct 4294966296 4297467296 none false (by decide) (by decide)⟩

/-- When the `umount` call at time `t` succeeds, the loop exits at once
with a single normal attempt, for every remaining budget. -/
theorem unmount_go_success (fails : Nat → Bool) (ff : Bool) (t rem : Nat)
    (h : fails t = false) :
    unmount_go fails ff t rem = ([UEvent.normalAttempt t], UOutcome.normalSuccess) := by
  cases rem <;> simp [unmount_go, h]

/-- A single normal attempt never splits around a forced attempt. -/
theorem single_normal_no_forced_split (t : Nat) (l1 l2 : List UEvent) :
    ¬ ([UEvent.normalAttempt t] = l1 ++ UEvent.forcedAttempt :: l2) := by
  intro heq
  cases l1 with
  | nil => simp at heq
  | cons a l1x =>
      cases l1x <;> simp at heq

/-- Full characterisation of the retry loop started at time `t` with sleep
budget `rem`: normal attempts stay within the window, at most one forced
attempt occurs, the forced attempt occurs exactly when every call in the
window fails, nothing follows the forced attempt, the loop always
terminates in one of the three outcomes, and the forced-failure outcome
occurs exactly when a forced attempt was made and it failed. -/
theorem unmount_go_spec (fails : Nat → Bool) (ff : Bool) :
    ∀ (rem t : Nat),
      (∀ u, UEvent.normalAttempt u ∈ (unmount_go fails ff t rem).1 → t ≤ u ∧ u ≤ t + rem) ∧
      List.count UEvent.forcedAttempt (unmount_go fails ff t rem).1 ≤ 1 ∧
      (UEvent.forcedAttempt ∈ (unmount_go fails ff t rem).1 ↔
        ∀ u, t ≤ u → u ≤ t + rem → fails u = true) ∧
      (∀ l1 l2, (unmount_go fails ff t rem).1 = l1 ++ UEvent.forcedAttempt :: l2 → l2 = []) ∧
      ((unmount_go fails ff t rem).2 = UOutcome.normalSuccess ∨
        (unmount_go fails ff t rem).2 = UOutcome.forcedSuccess ∨
        (unmount_go fails ff t rem).2 = UOutcome.forcedFailure) ∧
      ((unmount_go fails ff t rem).2 = UOutcome.forcedFailure ↔
        (UEvent.forcedAttempt ∈ (unmount_go fails ff t rem).1 ∧ ff = true)) := by
  intro rem
  induction rem with
  | zero =>
      intro t
      by_cases h : fails t = true
      · have hg : unmount_go fails ff t 0 =
            ([UEvent.normalAttempt t, UEvent.forcedAttempt],
              if ff then UOutcome.forcedFailure else UOutcome.forcedSuccess) := by
          simp [unmount_go, h]
        rw [hg]
        refine ⟨?_, ?_, ?_, ?_, ?_, ?_⟩
        · intro u hu
          simp at hu
          omega
        · simp [List.count_cons]
        · constructor
          · intro _ u h1 h2
            have : u = t := by omega
            subst this
            exact h
          · intro _
            simp
        · intro l1 l2 heq
          cases l1 with
          | nil => simp at heq
          | cons a l1x =>
              cases l1x with
              | nil =>
                  simp at heq
                  exact heq.2
              | cons b l1y => simp at heq
        · cases ff <;> simp
        · cases ff <;> simp
      · have h0 : fails t = false := by simpa using h
        rw [unmount_go_success fails ff t 0 h0]
        refine ⟨?_, by simp, ?_, ?_, by simp, ?_⟩
        · intro u hu
          simp at hu
          omega
        · simp only [List.mem_singleton]
          constructor
          · intro heq
            cases heq
          · intro hall
            have := hall t (Nat.le_refl t) (by omega)
            rw [h0] at this
            cases this
        · intro l1 l2 heq
          exact absurd heq (single_normal_no_forced_split t l1 l2)
        · simp
  | succ r ih =>
      intro t
      by_cases h : fails t = true
      · have hg : unmount_go fails ff t (r + 1) =
            (UEvent.normalAttempt t :: (unmount_go fails ff (t + 1) r).1,
              (unmount_go fails ff (t + 1) r).2) := by
          simp [unmount_go, h]
        obtain ⟨ih1, ih2, ih3, ih4, ih5, ih6⟩ := ih (t + 1)
        rw [hg]
        refine ⟨?_, ?_, ?_, ?_, ih5, ?_⟩
        · intro u hu
          simp at hu
          rcases hu with hu | hu
          · omega
          · have := ih1 u hu
            omega
        · simpa [List.count_cons] using ih2
        · simp only [List.mem_cons, false_or]
          have hne : UEvent.forcedAttempt ≠ UEvent.normalAttempt t := by simp
          constructor
          · intro hf u h1 h2
            rcases hf with hf | hf
            · exact absurd hf hne
            · rcases Nat.eq_or_lt_of_le h1 with rfl | hlt
              · exact h
              · exact ih3.mp hf u (by omega) (by omega)
          · intro hall
            right
            exact ih3.mpr fun u h1 h2 => hall u (by omega) (by omega)
        · intro l1 l2 heq
          cases l1 with
          | nil => simp at heq
          | cons a l1x =>
              simp only [List.cons_append, List.cons.injEq] at heq
              exact ih4 l1x l2 heq.2
        · have hmem : UEvent.forcedAttempt ∈
              UEvent.normalAttempt t :: (unmount_go fails ff (t + 1) r).1 ↔
              UEvent.forcedAttempt ∈ (unmount_go fails ff (t + 1) r).1 := by simp
          rw [hmem]
          exact ih6
      · have h0 : fails t = false := by simpa using h
        rw [unmount_go_success fails ff t (r + 1) h0]
        refine ⟨?_, by simp, ?_, ?_, by simp, ?_⟩
        · intro u hu
          simp at hu
          omega
        · simp only [List.mem_singleton]
          constructor
          · intro heq
            cases heq
          · intro hall
            have := hall t (Nat.le_refl t) (by omega)
            rw [h0] at this
            cases this
        · intro l1 l2 heq
          exact absurd heq (single_normal_no_forced_split t l1 l2)
        · simp

/-- C7: the retry loop of the unmount manager issues normal attempts only
at elapsed seconds 0..5 (within the 5-second timeout), makes at most one
forced attempt, makes it exactly when every normal attempt within the
window failed, never performs anything after the forced attempt (in
particular never retries the normal unmount past it), and terminates in
normal success, forced success, or forced failure — the latter exactly
when a forced attempt was made and failed (logged, never retried). -/
theorem unmount_retry_timeout_policy (fails : Nat → Bool) (forceFails : Bool) :
    (∀ u, UEvent.normalAttempt u ∈ (unmount_loop fails forceFails).1 → u ≤ 5) ∧
    List.count UEvent.forcedAttempt (unmount_loop fails forceFails).1 ≤ 1 ∧
    (UEvent.forcedAttempt ∈ (unmount_loop fails forceFails).1 ↔
      ∀ u, u ≤ 5 → fails u = true) ∧
    (∀ l1 l2, (unmount_loop fails forceFails).1 = l1 ++ UEvent.forcedAttempt :: l2 →
      l2 = []) ∧
    ((unmount_loop fails forceFails).2 = UOutcome.normalSuccess ∨
      (unmount_loop fails forceFails).2 = UOutcome.forcedSuccess ∨
      (unmount_loop fails forceFails).2 = UOutcome.forcedFailure) ∧
    ((unmount_loop fails forceFails).2 = UOutcome.forcedFailure ↔
      (UEvent.forcedAttempt ∈ (unmount_loop fails forceFails).1 ∧ forceFails = true)) := by
  obtain ⟨h1, h2, h3, h4, h5, h6⟩ := unmount_go_spec fails forceFails 5 0
  simp only [unmount_loop]
  refine ⟨?_, h2, ?_, h4, h5, h6⟩
  · intro u hu
    have := h1 u hu
    omega
  · rw [h3]
    constructor
    · intro hall u hu
      exact hall u (Nat.zero_le u) (by omega)
    · intro hall u _ hu
      exact hall u (by omega)

/-- Once `doShutdown` is raised it is never cleared by further power-line
events. -/
theorem runPower_shutdown_stays (evs : List PEvent) :
    ∀ (st : Option Nat) (ti : Bool), (runPower ⟨st, true, ti⟩ evs).doShutdown = true := by
  induction evs with
  | nil => intro st ti; rfl
  | cons e rest ih =>
      intro st ti
      rcases e with ⟨lv, tk⟩
      cases lv with
      | low => simpa [runPower, callbackStep, KEY_POWER] using ih (some tk) ti
      | high =>
          by_cases hgt : 2000 * 1000 < u32sub tk (st.getD tk)
          · simpa [runPower, callbackStep, KEY_POWER, hgt] using ih (some (st.getD tk)) ti
          · simpa [runPower, callbackStep, KEY_POWER, hgt] using ih (some (st.getD tk)) ti

/-- Running the classifier from an un-raised state whose tracked press
start is `t0`: shutdown ends up raised exactly when the pending press is
released over-threshold by the first event or some later asserted
interval is over-threshold. -/
theorem runPower_aux (evs : List PEvent) :
    ∀ (t0 : Nat) (ti : Bool),
      t0 < 4294967296 →
      (∀ e, evs.head? = some e → t0 ≤ e.tick) →
      alternating evs → ticksMono evs →
      (∀ e ∈ evs, e.tick < 4294967296) →
      ((runPower ⟨some t0, false, ti⟩ evs).doShutdown = true ↔
        (headLong t0 evs = true ∨ hasLongPress evs = true)) := by
  induction evs with
  | nil =>
      intro t0 ti _ _ _ _ _
      simp [runPower, headLong, hasLongPress]
  | cons e rest ih =>
      intro t0 ti ht0 hhead halt hmono hbound
      rcases e with ⟨lv, tk⟩
      have htk : tk < 4294967296 := hbound ⟨lv, tk⟩ (List.mem_cons_self _ _)
      have hboundr : ∀ e ∈ rest, e.tick < 4294967296 :=
        fun e he => hbound e (List.mem_cons_of_mem _ he)
      obtain ⟨halth, haltr⟩ := List.chain'_cons'.mp halt
      obtain ⟨hmonoh, hmonor⟩ := List.chain'_cons'.mp hmono
      cases lv with
      | low =>
          have hstep : (runPower ⟨some t0, false, ti⟩ (⟨GpioLevel.low, tk⟩ :: rest)).doShutdown =
              (runPower ⟨some tk, false, ti⟩ rest).doShutdown := by
            simp [runPower, callbackStep, KEY_POWER]
          rw [hstep]
          have hheadr : ∀ e, rest.head? = some e → tk ≤ e.tick :=
            fun e he => hmonoh e (by simp [he])
          rw [ih tk ti htk hheadr haltr hmonor hboundr]
          cases rest with
          | nil => simp [headLong, hasLongPress]
          | cons e2 rest2 => simp [headLong, hasLongPress]
      | high =>
          have hle : t0 ≤ tk := hhead ⟨GpioLevel.high, tk⟩ rfl
          have key : u32sub tk t0 = tk - t0 := by
            unfold u32sub
            omega
          by_cases hgt : 2000 * 1000 < tk - t0
          · have hstep : (runPower ⟨some t0, false, ti⟩ (⟨GpioLevel.high, tk⟩ :: rest)).doShutdown =
                (runPower ⟨some t0, true, ti⟩ rest).doShutdown := by
              simp [runPower, callbackStep, KEY_POWER, key, hgt]
            rw [hstep]
            simp [runPower_shutdown_stays rest (some t0) ti, headLong, hgt]
          · have hstep : (runPower ⟨some t0, false, ti⟩ (⟨GpioLevel.high, tk⟩ :: rest)).doShutdown =
                (runPower ⟨some t0, false, ti⟩ rest).doShutdown := by
              simp [runPower, callbackStep, KEY_POWER, key, hgt]
            rw [hstep]
            have hheadr : ∀ e, rest.head? = some e → t0 ≤ e.tick := by
              intro e he
              have h2 : tk ≤ e.tick := hmonoh e (by simp [he])
              omega
            rw [ih t0 ti ht0 hheadr haltr hmonor hboundr]
            cases rest with
            | nil => simp [headLong, hasLongPress, hgt]
            | cons e2 rest2 =>
                have hne : GpioLevel.high ≠ e2.level := halth e2 (by simp)
                have he2 : e2.level = GpioLevel.low := by
                  cases h2 : e2.level
                  · rfl
                  · exact absurd h2.symm hne
                simp [headLong, hasLongPress, hgt, he2]

/-- C2: starting from the un-raised initial state, for every sequence of
genuine power-line edges with monotone 32-bit ticks, ShutdownRequested
ends up raised if and only if some asserted interval (a press edge
immediately followed by a release edge) lasts strictly more than 2000 ms;
every new press resets the tracked start, so short presses — however many
— never raise it. -/
theorem power_long_press_iff_shutdown (evs : List PEvent)
    (halt : alternating evs) (hmono : ticksMono evs)
    (hbound : ∀ e ∈ evs, e.tick < 4294967296) :
    ((runPower initAppState evs).doShutdown = true ↔ hasLongPress evs = true) := by
  cases evs with
  | nil => simp [runPower, initAppState, hasLongPress]
  | cons e rest =>
      rcases e with ⟨lv, tk⟩
      have htk : tk < 4294967296 := hbound ⟨lv, tk⟩ (List.mem_cons_self _ _)
      have hboundr : ∀ e ∈ rest, e.tick < 4294967296 :=
        fun e he => hbound e (List.mem_cons_of_mem _ he)
      obtain ⟨halth, haltr⟩ := List.chain'_cons'.mp halt
      obtain ⟨hmonoh, hmonor⟩ := List.chain'_cons'.mp hmono
      have hheadr : ∀ e, rest.head? = some e → tk ≤ e.tick :=
        fun e he => hmonoh e (by simp [he])
      cases lv with
      | low =>
          have hstep : (runPower initAppState (⟨GpioLevel.low, tk⟩ :: rest)).doShutdown =
              (runPower ⟨some tk, false, false⟩ rest).doShutdown := by
            simp [runPower, callbackStep, KEY_POWER, initAppState]
          rw [hstep]
          rw [runPower_aux rest tk false htk hheadr haltr hmonor hboundr]
          cases rest with
          | nil => simp [headLong, hasLongPress]
          | cons e2 rest2 => simp [headLong, hasLongPress]
      | high =>
          have key : u32sub tk tk = 0 := by
            unfold u32sub
            omega
          have hstep : (runPower initAppState (⟨GpioLevel.high, tk⟩ :: rest)).doShutdown =
              (runPower ⟨some tk, false, false⟩ rest).doShutdown := by
            simp [runPower, callbackStep, KEY_POWER, initAppState, key]
          rw [hstep]
          rw [runPower_aux rest tk false htk hheadr haltr hmonor hboundr]
          cases rest with
          | nil => simp [headLong, hasLongPress]
          | cons e2 rest2 =>
              have hne : GpioLevel.high ≠ e2.level := halth e2 (by simp)
              have he2 : e2.level = GpioLevel.low := by
                cases h2 : e2.level
                · rfl
                · exact absurd h2.symm hne
              simp [headLong, hasLongPress, he2]

/-- C2 (witness): a 1 s press coalesced with a following 2 500 001 µs
press; only the second (long) press raises shutdown, and the
characterisation holds. -/
theorem power_long_press_iff_shutdown_witness :
    alternating
        [⟨GpioLevel.low, 0⟩, ⟨GpioLevel.high, 1000000⟩,
          ⟨GpioLevel.low, 5000000⟩, ⟨GpioLevel.high, 7500001⟩] ∧
    ticksMono
        [⟨GpioLevel.low, 0⟩, ⟨GpioLevel.high, 1000000⟩,
          ⟨GpioLevel.low, 5000000⟩, ⟨GpioLevel.high, 7500001⟩] ∧
    (∀ e ∈ ([⟨GpioLevel.low, 0⟩, ⟨GpioLevel.high, 1000000⟩,
          ⟨GpioLevel.low, 5000000⟩, ⟨GpioLevel.high, 7500001⟩] : List PEvent),
        e.tick < 4294967296) ∧
    ((runPower initAppState
        [⟨GpioLevel.low, 0⟩, ⟨GpioLevel.high, 1000000⟩,
          ⟨GpioLevel.low, 5000000⟩, ⟨GpioLevel.high, 7500001⟩]).doShutdown = true ↔
      hasLongPress
        [⟨GpioLevel.low, 0⟩, ⟨GpioLevel.high, 1000000⟩,
          ⟨GpioLevel.low, 5000000⟩, ⟨GpioLevel.high, 7500001⟩] = true) :=
  ⟨by simp [alternating], by simp [ticksMono], by decide,
   power_long_press_iff_shutdown _ (by simp [alternating]) (by simp [ticksMono]) (by decide)⟩

/-- C7 (witness): the spec's test vector — a device whose unmount fails
for 6 seconds then would succeed: the manager makes normal attempts at
seconds 0..5 only, then exactly one forced attempt, and terminates. -/
theorem unmount_retry_timeout_policy_witness :
    (∀ u, UEvent.normalAttempt u ∈ (unmount_loop (fun u => decide (u < 6)) false).1 → u ≤ 5) ∧
    List.count UEvent.forcedAttempt (unmount_loop (fun u => decide (u < 6)) false).1 ≤ 1 ∧
    (UEvent.forcedAttempt ∈ (unmount_loop (fun u => decide (u < 6)) false).1 ↔
      ∀ u, u ≤ 5 → decide (u < 6) = true) ∧
    (∀ l1 l2, (unmount_loop (fun u => decide (u < 6)) false).1 =
        l1 ++ UEvent.forcedAttempt :: l2 → l2 = []) ∧
    ((unmount_loop (fun u => decide (u < 6)) false).2 = UOutcome.normalSuccess ∨
      (unmount_loop (fun u => decide (u < 6)) false).2 = UOutcome.forcedSuccess ∨
      (unmount_loop (fun u => decide (u < 6)) false).2 = UOutcome.forcedFailure) ∧
    ((unmount_loop (fun u => decide (u < 6)) false).2 = UOutcome.forcedFailure ↔
      (UEvent.forcedAttempt ∈ (unmount_loop (fun u => decide (u < 6)) false).1 ∧
        false = true)) :=
  unmount_retry_timeout_policy (fun u => decide (u < 6)) false
